import Mathlib

/-!
Shallow embedding of `src/profile.py`, a CloudLab/Emulab profile script that
validates user parameters and assembles a stitched FPGA network-topology
request (an RSpec request graph).

The embedding follows the source line by line:
* parameter record and the constants `NODE_MIN`/`NODE_MAX`/`VLAN_MIN`/`VLAN_MAX`;
* the four accumulating validation checks (profile.py lines 91-103);
* the try/except subnet-parsing block (lines 105-111), with the IPv4/IPv6
  CIDR parsers of the external `ipaddress` library modelled from the spec;
* the topology branch (lines 116-120), the per-host loop (lines 129-187),
  the stitch node (lines 192-210) and the post-loop tag-and-flag section
  (lines 213-227).  Python name binding of the variables `lan`, `lan1`,
  `lan2` is made explicit by an environment of `Option` bindings, so a read
  of an unbound name is a `NameError` value rather than a crash.
-/

namespace OctFabric

def NODE_MIN : Int := 1
def NODE_MAX : Int := 4
def VLAN_MIN : Int := 3110
def VLAN_MAX : Int := 3119

/-- Cluster authority URN for the UMass cluster (the fixed default). -/
def UMASS_CM : String := "urn:publicid:IDN+cloudlab.umass.edu+authority+cm"

/-- Cluster authority URN for the Clemson cluster (the second authority the
stitch node accepts, profile.py line 199). -/
def CLEMSON_CM : String := "urn:publicid:IDN+clemson.cloudlab.us+authority+cm"

/-- The legacy OS image of the forbidden OS/tool pairing (profile.py line 95). -/
def CENTOS8_IMAGE : String := "urn:publicid:IDN+emulab.net+image+emulab-ops//CENTOS8-64-STD"

/-- The bound parameter set (profile.py lines 39-88). -/
structure Params where
  nodes : String
  cluster : String
  toolVersion : String
  osImage : String
  tempFileSystemSize : Int
  tempFileSystemMax : Bool
  tempFileSystemMount : String
  vlan1 : Int
  vlan2 : Int
  ip_subnet : String
  node_count : Int
deriving Repr, DecidableEq

/-! ### Parameter validation (profile.py lines 91-103) -/

def nodeCountError : String := "Node count must be between 1 and 4 inclusive"

def osToolError : String := "OS and tool version mismatch."

def vlanError : String := "VLAN ID must be in the range 3110-3119"

/-- The four accumulating validation checks, in source order.  Each check
contributes its error message independently of the others (the source is four
separate `if` statements, none nested). -/
def validationErrors (p : Params) : List String :=
  (if p.node_count < NODE_MIN ∨ p.node_count > NODE_MAX then [nodeCountError] else []) ++
  (if p.osImage = CENTOS8_IMAGE ∧ p.toolVersion = "2020.1" then [osToolError] else []) ++
  (if p.vlan1 < VLAN_MIN ∨ p.vlan1 > VLAN_MAX then [vlanError] else []) ++
  (if p.vlan2 < VLAN_MIN ∨ p.vlan2 > VLAN_MAX then [vlanError] else [])

/-! ### Subnet parsing (profile.py lines 105-111)

The parsers themselves live in the external `ipaddress` library, not in the
repository, so they are modelled from the spec; the try/except fallback
structure around them is translated from the source. -/

/-- Split a character list at every occurrence of `sep` (auxiliary). -/
def splitOnCharAux (sep : Char) : List Char → List Char → List (List Char)
  | [], acc => [acc.reverse]
  | c :: cs, acc =>
    if c = sep then acc.reverse :: splitOnCharAux sep cs []
    else splitOnCharAux sep cs (c :: acc)

/-- Split a character list at every occurrence of `sep`; mirrors Python's
`str.split` for a one-character separator (so the empty string yields one
empty field). -/
def splitOnChar (sep : Char) (cs : List Char) : List (List Char) :=
  splitOnCharAux sep cs []

/-- Read a nonempty all-digit character list as a decimal number. -/
def decNat? (cs : List Char) : Option Nat :=
  if cs ≠ [] ∧ cs.all Char.isDigit then
    some (cs.foldl (fun a c => a * 10 + (c.toNat - 48)) 0)
  else none

/-- Modelled from the spec: one dotted-quad octet of an IPv4 address, at most
three digits with value at most 255. -/
def parseOctet (cs : List Char) : Option Nat :=
  match decNat? cs with
  | some n => if cs.length ≤ 3 ∧ n ≤ 255 then some n else none
  | none => none

/-- Modelled from the spec: a dotted-quad IPv4 address as its 32-bit value. -/
def parseIPv4Addr (cs : List Char) : Option Nat :=
  match splitOnChar '.' cs with
  | [a, b, c, d] =>
    match parseOctet a, parseOctet b, parseOctet c, parseOctet d with
    | some x, some y, some z, some w => some (((x * 256 + y) * 256 + z) * 256 + w)
    | _, _, _, _ => none
  | _ => none

def isHexDigitChar (c : Char) : Bool :=
  c.isDigit || ('a' ≤ c && c ≤ 'f') || ('A' ≤ c && c ≤ 'F')

/-- A 16-bit IPv6 group: one to four hexadecimal digits. -/
def isH16 (cs : List Char) : Bool :=
  decide (1 ≤ cs.length) && decide (cs.length ≤ 4) && cs.all isHexDigitChar

/-- Split a character list at the first occurrence of a double colon,
returning the parts before and after it, or `none` if there is none. -/
def findDoubleColon : List Char → Option (List Char × List Char)
  | [] => none
  | [_] => none
  | a :: b :: rest =>
    if a = ':' ∧ b = ':' then some ([], rest)
    else
      match findDoubleColon (b :: rest) with
      | some (l, r) => some (a :: l, r)
      | none => none

/-- Modelled from the spec: count the 16-bit groups of a colon-separated IPv6
group list; a trailing embedded dotted-quad IPv4 address (allowed only in the
final position) counts as two groups. -/
def v6Groups (allowV4Tail : Bool) : List (List Char) → Option Nat
  | [] => some 0
  | [g] =>
    if isH16 g then some 1
    else if allowV4Tail then
      match parseIPv4Addr g with
      | some _ => some 2
      | none => none
    else none
  | g :: gs =>
    if isH16 g then (v6Groups allowV4Tail gs).map (fun n => n + 1) else none

/-- Modelled from the spec: syntactic validity of an IPv6 address, with at
most one double-colon compression standing for at least one zero group, and
an optional embedded IPv4 tail. -/
def isValidIPv6Addr (cs : List Char) : Bool :=
  match findDoubleColon cs with
  | some (l, r) =>
    (findDoubleColon r).isNone &&
    (match (if l.isEmpty then some 0 else v6Groups false (splitOnChar ':' l)),
           (if r.isEmpty then some 0 else v6Groups true (splitOnChar ':' r)) with
     | some a, some b => decide (a + b ≤ 7)
     | _, _ => false)
  | none =>
    match v6Groups true (splitOnChar ':' cs) with
    | some n => decide (n = 8)
    | _ => false

/-- A successfully parsed subnet parameter. -/
inductive Subnet where
  | v4 (addr : Nat) (plen : Nat)
  | v6 (plen : Nat)
deriving Repr, DecidableEq

/-- Modelled from the spec: `IPv4Network` applied to a CIDR string
`a.b.c.d/plen`. -/
def parseIPv4Network (s : String) : Option Subnet :=
  match splitOnChar '/' s.data with
  | [a, m] =>
    match parseIPv4Addr a, decNat? m with
    | some addr, some n => if n ≤ 32 then some (.v4 addr n) else none
    | _, _ => none
  | _ => none

/-- Modelled from the spec: `IPv6Network` applied to a CIDR string
`addr/plen`. -/
def parseIPv6Network (s : String) : Option Subnet :=
  match splitOnChar '/' s.data with
  | [a, m] =>
    if isValidIPv6Addr a then
      match decNat? m with
      | some n => if n ≤ 128 then some (.v6 n) else none
      | none => none
    else none
  | _ => none

/-- The try/except block of profile.py lines 105-111: attempt IPv4 parsing,
fall back to IPv6 on failure, re-raise (here: `none`) when both fail. -/
def parseSubnet (s : String) : Option Subnet :=
  match parseIPv4Network s with
  | some n => some n
  | none => parseIPv6Network s

/-! ### Request-graph objects -/

/-- An address attached to an interface (`pg.IPv4Address(addr, mask)`). -/
structure IPv4Address where
  addr : String
  mask : String
deriving Repr, DecidableEq

/-- A network interface; host-side interfaces get a name argument
(`addInterface("if0")`), fpga-side interfaces get a `component_id`. -/
structure Iface where
  name : Option String
  component_id : Option String
  addrs : List IPv4Address
deriving Repr, DecidableEq

/-- The optional ephemeral blockstore of a host node (profile.py lines 141-149). -/
structure Blockstore where
  name : String
  mount : String
  size : String
  placement : String
deriving Repr, DecidableEq

/-- A deferred-execution service (`pg.Execute`). -/
structure Service where
  shell : String
  command : String
deriving Repr, DecidableEq

/-- A host node (`request.RawPC(name)`, profile.py lines 133-151). -/
structure HostNode where
  name : String
  component_manager_id : String
  component_id : String
  disk_image : String
  blockstore : Option Blockstore
  services : List Service
deriving Repr, DecidableEq

/-- An FPGA sub-node (`request.RawPC("fpga-"+name)`, profile.py lines 154-177). -/
structure FpgaNode where
  name : String
  component_manager_id : String
  component_id : String
  useTypeDefaultImage : Bool
  subNodeOf : String
  interfaces : List Iface
deriving Repr, DecidableEq

/-- The stitch node (`request.Node("stitch-node", "emulab-connect")`,
profile.py lines 192-208). -/
structure StitchNode where
  name : String
  ntype : String
  site : String
  component_id : String
  component_manager_id : String
  exclusive : Bool
  interfaces : List Iface
deriving Repr, DecidableEq

inductive LanKind where
  | ptpLink
  | lanGroup
deriving Repr, DecidableEq

/-- A link or LAN object (`request.Link` / `request.LAN`). -/
structure Lan where
  kind : LanKind
  name : String
  ltype : String
  vlan_tag : Option Int
  interfaces : List Iface
  link_multiplexing : Bool
  best_effort : Bool
deriving Repr, DecidableEq

/-- The request graph handed to the serializer. -/
structure Graph where
  hosts : List HostNode
  fpgas : List FpgaNode
  stitch : List StitchNode
  lans : List Lan
deriving Repr, DecidableEq

/-! ### Per-host assembly loop (profile.py lines 129-187) -/

/-- Python's `params.nodes.split(',')`. -/
def nodeList (p : Params) : List String :=
  (splitOnChar ',' p.nodes.data).map (fun cs => String.mk cs)

/-- The optional blockstore of profile.py lines 141-149. -/
def mkBlockstore (p : Params) (name : String) : Option Blockstore :=
  if p.tempFileSystemSize > 0 ∨ p.tempFileSystemMax = true then
    some { name := name ++ "-bs", mount := p.tempFileSystemMount,
           size := if p.tempFileSystemMax then "0GB"
                   else toString p.tempFileSystemSize ++ "GB",
           placement := "any" }
  else none

/-- The post-boot service command of profile.py line 151. -/
def postBootCommand (p : Params) : String :=
  "sudo /local/repository/post-boot.sh " ++ p.toolVersion ++
    " >> /local/repository/output_log.txt"

/-- One host node of the loop body (profile.py lines 133-151). -/
def mkHostNode (p : Params) (name : String) : HostNode :=
  { name := name, component_manager_id := UMASS_CM, component_id := name,
    disk_image := p.osImage, blockstore := mkBlockstore p name,
    services := [{ shell := "bash", command := postBootCommand p }] }

/-- The first fpga interface: component id `eth0`, address
`192.168.1.(idx+10)` (profile.py lines 172-174). -/
def fpgaIface1 (idx : Nat) : Iface :=
  { name := none, component_id := some "eth0",
    addrs := [{ addr := "192.168.1." ++ toString (idx + 10), mask := "255.255.255.0" }] }

/-- The second fpga interface: component id `eth1`, address
`192.168.2.(idx+10)` (profile.py lines 175-177). -/
def fpgaIface2 (idx : Nat) : Iface :=
  { name := none, component_id := some "eth1",
    addrs := [{ addr := "192.168.2." ++ toString (idx + 10), mask := "255.255.255.0" }] }

/-- One fpga sub-node of the loop body (profile.py lines 154-177). -/
def mkFpgaNode (name : String) (idx : Nat) : FpgaNode :=
  { name := "fpga-" ++ name, component_manager_id := UMASS_CM,
    component_id := "fpga-" ++ name, useTypeDefaultImage := true,
    subNodeOf := name, interfaces := [fpgaIface1 idx, fpgaIface2 idx] }

/-- Everything the per-host loop accumulates, plus the running index. -/
structure LoopState where
  hosts : List HostNode
  fpgas : List FpgaNode
  ifs1 : List Iface
  ifs2 : List Iface
  idx : Nat
deriving Repr, DecidableEq

/-- The per-host loop (profile.py lines 131-187): one host node, one fpga
sub-node and two interfaces per name, with `idx` incremented each pass. -/
def hostLoop (p : Params) : List String → Nat → LoopState
  | [], idx => { hosts := [], fpgas := [], ifs1 := [], ifs2 := [], idx := idx }
  | name :: rest, idx =>
    let st := hostLoop p rest (idx + 1)
    { hosts := mkHostNode p name :: st.hosts,
      fpgas := mkFpgaNode name idx :: st.fpgas,
      ifs1 := fpgaIface1 idx :: st.ifs1,
      ifs2 := fpgaIface2 idx :: st.ifs2,
      idx := st.idx }

/-! ### Stitch node (profile.py lines 192-210) -/

/-- Stitch interface `if0`: address `192.168.1.(idx+50)` (lines 204, 207). -/
def stitchIface1 (idx : Nat) : Iface :=
  { name := some "if0", component_id := none,
    addrs := [{ addr := "192.168.1." ++ toString (idx + 50), mask := "255.255.255.0" }] }

/-- Stitch interface `if1`: address `192.168.2.(idx+50)` (lines 205, 208). -/
def stitchIface2 (idx : Nat) : Iface :=
  { name := some "if1", component_id := none,
    addrs := [{ addr := "192.168.2." ++ toString (idx + 50), mask := "255.255.255.0" }] }

/-- The stitch node's component manager (profile.py lines 198-202): the
selected cluster when it is one of the two allowed authorities, else the
UMass default. -/
def stitchManager (p : Params) : String :=
  if p.cluster = UMASS_CM ∨ p.cluster = CLEMSON_CM then p.cluster else UMASS_CM

/-- The stitch node (profile.py lines 192-208); `idx` is the loop's final
index, i.e. the number of host names processed. -/
def mkStitchNode (p : Params) (idx : Nat) : StitchNode :=
  { name := "stitch-node", ntype := "emulab-connect", site := "stitch",
    component_id := "interconnect-fabric",
    component_manager_id := stitchManager p, exclusive := false,
    interfaces := [stitchIface1 idx, stitchIface2 idx] }

/-! ### Topology branch and post-loop tag-and-flag (profile.py 116-120, 213-227) -/

/-- A fresh point-to-point link (`request.Link(name, ltype)`). -/
def emptyLink (n t : String) : Lan :=
  { kind := .ptpLink, name := n, ltype := t, vlan_tag := none, interfaces := [],
    link_multiplexing := false, best_effort := false }

/-- A fresh LAN group (`request.LAN()`). -/
def emptyLAN : Lan :=
  { kind := .lanGroup, name := "", ltype := "", vlan_tag := none, interfaces := [],
    link_multiplexing := false, best_effort := false }

/-- The Python bindings of the names `lan`, `lan1`, `lan2`; `none` is an
unbound name, so reading it raises a `NameError`. -/
structure LanEnv where
  lan : Option Lan
  lan1 : Option Lan
  lan2 : Option Lan
deriving Repr, DecidableEq

/-- The topology branch (profile.py lines 116-120): `node_count == 1` binds
`lan1` and `lan2` to two links, any other count binds `lan` to one LAN. -/
def initLanEnv (p : Params) : LanEnv :=
  if p.node_count = 1 then
    { lan := none, lan1 := some (emptyLink "link" "vlan1"),
      lan2 := some (emptyLink "link" "vlan2") }
  else
    { lan := some emptyLAN, lan1 := none, lan2 := none }

/-- How a run can fail before printing the RSpec. -/
inductive RunError where
  | validationFailed (errs : List String)
  | subnetParseError
  | nameError (v : String)
deriving Repr, DecidableEq

/-- The post-loop section (profile.py lines 213-227): tag `lan1`/`lan2`, add
the collected interfaces to them, then set the multiplexing and best-effort
flags on `lan`.  Reading an unbound name stops the run with that name's
`NameError`, leaving the environment as it stood. -/
def tagAndFlag (p : Params) (iv1 iv2 : List Iface) (env : LanEnv) :
    LanEnv × Option RunError :=
  match env.lan1 with
  | none => (env, some (.nameError "lan1"))
  | some l1 =>
    match env.lan2 with
    | none => (env, some (.nameError "lan2"))
    | some l2 =>
      let l1' := { l1 with vlan_tag := some p.vlan1, interfaces := l1.interfaces ++ iv1 }
      let l2' := { l2 with vlan_tag := some p.vlan2, interfaces := l2.interfaces ++ iv2 }
      let env' : LanEnv := { env with lan1 := some l1', lan2 := some l2' }
      match env'.lan with
      | none => (env', some (.nameError "lan"))
      | some l =>
        ({ env' with lan := some { l with link_multiplexing := true, best_effort := true } },
         none)

/-- The request objects a `LanEnv` holds, links first. -/
def lansOf (env : LanEnv) : List Lan :=
  env.lan1.toList ++ env.lan2.toList ++ env.lan.toList

/-- The per-host loop run over the full node list, starting at index 0. -/
def loopResult (p : Params) : LoopState :=
  hostLoop p (nodeList p) 0

/-- `interfaces_vlan1` as it stands at line 216: the hosts' first interfaces
followed by the stitch node's first interface. -/
def memberIfs1 (p : Params) : List Iface :=
  (loopResult p).ifs1 ++ [stitchIface1 (loopResult p).idx]

/-- `interfaces_vlan2` as it stands at line 219: the hosts' second interfaces
followed by the stitch node's second interface. -/
def memberIfs2 (p : Params) : List Iface :=
  (loopResult p).ifs2 ++ [stitchIface2 (loopResult p).idx]

/-- Graph assembly (profile.py lines 116-227): the topology branch, the
per-host loop, the stitch node, and the tag-and-flag section, returning the
graph as built together with the error, if any, that stopped the section. -/
def assembleGraph (p : Params) : Graph × Option RunError :=
  let st := loopResult p
  let res := tagAndFlag p (memberIfs1 p) (memberIfs2 p) (initLanEnv p)
  ({ hosts := st.hosts, fpgas := st.fpgas,
     stitch := [mkStitchNode p st.idx],
     lans := lansOf res.1 }, res.2)

/-- One whole run of the script after parameter binding: validation errors
are accumulated (lines 91-103), subnet parsing may abort fatally (lines
105-111), `pc.verifyParameters()` halts on any accumulated error (line 113),
and only then does assembly run; `.ok` is reached only if the tag-and-flag
section raises no `NameError`, and carries the graph handed to
`pc.printRequestRSpec` (line 230). -/
def run (p : Params) : Except RunError Graph :=
  match parseSubnet p.ip_subnet with
  | none => .error .subnetParseError
  | some _ =>
    if validationErrors p = [] then
      match assembleGraph p with
      | (g, none) => .ok g
      | (_, some e) => .error e
    else .error (.validationFailed (validationErrors p))

/-! ### Concrete parameter sets used by witnesses -/

/-- A validated two-host parameter set (`nodes = "a,b"`, `node_count = 2`). -/
def P_two : Params :=
  { nodes := "a,b", cluster := UMASS_CM, toolVersion := "2023.1",
    osImage := "urn:publicid:IDN+emulab.net+image+emulab-ops//UBUNTU20-64-STD",
    tempFileSystemSize := 0, tempFileSystemMax := false,
    tempFileSystemMount := "/mydata", vlan1 := 3110, vlan2 := 3111,
    ip_subnet := "192.168.1.0/24", node_count := 2 }

/-- `P_two` with a malformed subnet string; used to show the graph does not
depend on `ip_subnet`. -/
def P_two' : Params :=
  { nodes := "a,b", cluster := UMASS_CM, toolVersion := "2023.1",
    osImage := "urn:publicid:IDN+emulab.net+image+emulab-ops//UBUNTU20-64-STD",
    tempFileSystemSize := 0, tempFileSystemMax := false,
    tempFileSystemMount := "/mydata", vlan1 := 3110, vlan2 := 3111,
    ip_subnet := "banana", node_count := 2 }

/-- A validated single-host parameter set (`nodes = "x"`, `node_count = 1`). -/
def P_one : Params :=
  { nodes := "x", cluster := UMASS_CM, toolVersion := "2023.2",
    osImage := "urn:publicid:IDN+emulab.net+image+emulab-ops//UBUNTU22-64-STD",
    tempFileSystemSize := 0, tempFileSystemMax := false,
    tempFileSystemMount := "/mydata", vlan1 := 3110, vlan2 := 3111,
    ip_subnet := "192.168.1.0/24", node_count := 1 }

/-! ### Helper lemmas -/

theorem mem_if_singleton {α : Type} {c : Prop} [Decidable c] {a x : α} :
    (a ∈ (if c then [x] else [])) ↔ c ∧ a = x := by
  split <;> simp_all

theorem hostLoop_idx (p : Params) (names : List String) (i : Nat) :
    (hostLoop p names i).idx = i + names.length := by
  induction names generalizing i with
  | nil => simp [hostLoop]
  | cons n rest ih => simp [hostLoop, ih]; omega

theorem hostLoop_hosts (p : Params) (names : List String) (i : Nat) :
    (hostLoop p names i).hosts = names.map (mkHostNode p) := by
  induction names generalizing i with
  | nil => simp [hostLoop]
  | cons n rest ih => simp [hostLoop, ih]

theorem hostLoop_fpgas_length (p : Params) (names : List String) (i : Nat) :
    (hostLoop p names i).fpgas.length = names.length := by
  induction names generalizing i with
  | nil => simp [hostLoop]
  | cons n rest ih => simp [hostLoop, ih]

theorem hostLoop_fpgas_getElem (p : Params) (names : List String) (i k : Nat) :
    ((hostLoop p names i).fpgas)[k]? = (names[k]?).map (fun n => mkFpgaNode n (i + k)) := by
  induction names generalizing i k with
  | nil => simp [hostLoop]
  | cons n rest ih =>
    cases k with
    | zero => simp [hostLoop]
    | succ k =>
      have h : i + 1 + k = i + (k + 1) := by omega
      simp only [hostLoop, List.getElem?_cons_succ]
      rw [ih, h]

theorem hostLoop_congr (p q : Params)
    (h1 : p.osImage = q.osImage) (h2 : p.toolVersion = q.toolVersion)
    (h3 : p.tempFileSystemSize = q.tempFileSystemSize)
    (h4 : p.tempFileSystemMax = q.tempFileSystemMax)
    (h5 : p.tempFileSystemMount = q.tempFileSystemMount) :
    ∀ names i, hostLoop p names i = hostLoop q names i := by
  intro names
  induction names with
  | nil => intro i; rfl
  | cons n rest ih =>
    intro i
    simp [hostLoop, ih, mkHostNode, mkBlockstore, postBootCommand, h1, h2, h3, h4, h5]

/-- Assembly and validation read every parameter binding except `ip_subnet`:
two parameter sets agreeing on those bindings assemble the same graph and
accumulate the same validation errors. -/
theorem assembleGraph_fields_congr (p q : Params)
    (h1 : p.nodes = q.nodes) (h2 : p.cluster = q.cluster)
    (h3 : p.toolVersion = q.toolVersion) (h4 : p.osImage = q.osImage)
    (h5 : p.tempFileSystemSize = q.tempFileSystemSize)
    (h6 : p.tempFileSystemMax = q.tempFileSystemMax)
    (h7 : p.tempFileSystemMount = q.tempFileSystemMount)
    (h8 : p.vlan1 = q.vlan1) (h9 : p.vlan2 = q.vlan2)
    (h10 : p.node_count = q.node_count) :
    assembleGraph p = assembleGraph q ∧ validationErrors p = validationErrors q := by
  have hnl : nodeList p = nodeList q := by rw [nodeList, nodeList, h1]
  have hlr : loopResult p = loopResult q := by
    rw [loopResult, loopResult, hnl, hostLoop_congr p q h4 h3 h5 h6 h7]
  have henv : initLanEnv p = initLanEnv q := by rw [initLanEnv, initLanEnv, h10]
  have htf : ∀ iv1 iv2 env, tagAndFlag p iv1 iv2 env = tagAndFlag q iv1 iv2 env := by
    intro iv1 iv2 env
    unfold tagAndFlag
    rw [h8, h9]
  have hst : ∀ i, mkStitchNode p i = mkStitchNode q i := by
    intro i
    unfold mkStitchNode stitchManager
    rw [h2]
  have hm1 : memberIfs1 p = memberIfs1 q := by rw [memberIfs1, memberIfs1, hlr]
  have hm2 : memberIfs2 p = memberIfs2 q := by rw [memberIfs2, memberIfs2, hlr]
  constructor
  · simp only [assembleGraph, hlr, henv, hm1, hm2, htf, hst]
  · unfold validationErrors
    rw [h4, h3, h8, h9, h10]

/-! ### C3: every run dies on an unbound name before printing -/

/-- C3: for every parameter set that passes validation and subnet parsing,
the post-loop tag-and-flag step reads a name bound only in the other
topology branch (`lan` when `node_count = 1`, `lan1` otherwise), so the run
fails with an undefined-name error and no document is ever emitted. -/
theorem undefined_name_abort (p : Params) (s : Subnet)
    (hs : parseSubnet p.ip_subnet = some s) (hv : validationErrors p = []) :
    run p = .error (.nameError (if p.node_count = 1 then "lan" else "lan1")) ∧
    ∀ g, run p ≠ .ok g := by
  have key : run p = .error (.nameError (if p.node_count = 1 then "lan" else "lan1")) := by
    unfold run
    rw [hs]
    simp only [hv, if_pos rfl]
    by_cases h1 : p.node_count = 1
    · simp [assembleGraph, initLanEnv, h1, tagAndFlag]
    · simp [assembleGraph, initLanEnv, h1, tagAndFlag]
  refine ⟨key, ?_⟩
  intro g hg
  rw [key] at hg
  exact Except.noConfusion hg

/-- Witness for C3 at the concrete two-host parameter set `P_two`. -/
theorem undefined_name_abort_witness :
    run P_two = .error (.nameError (if P_two.node_count = 1 then "lan" else "lan1")) ∧
    ∀ g, run P_two ≠ .ok g :=
  undefined_name_abort P_two (Subnet.v4 3232235776 24) rfl rfl

/-! ### C1: the two-host LAN path -/

/-- C1 (evaluation at the failing input): for the validated two-host
parameter set `P_two` the code builds one untagged, memberless `request.LAN`
bound to the name `lan` and then stops with a `NameError` on
`lan1.setVlanTag`, so the two tagged three-member LAN groups the spec
describes never exist. -/
theorem two_host_single_untagged_lan :
    run P_two = .error (.nameError "lan1") ∧
    (assembleGraph P_two).1.lans = [emptyLAN] ∧
    emptyLAN.kind = LanKind.lanGroup ∧
    emptyLAN.vlan_tag = none ∧
    emptyLAN.interfaces = [] ∧
    emptyLAN.link_multiplexing = false ∧
    emptyLAN.best_effort = false :=
  ⟨rfl, rfl, rfl, rfl, rfl, rfl, rfl⟩

/-! ### C2: the single-host link path -/

/-- C2: with `node_count = 1` and a single host name, assembly creates two
point-to-point links instead of LAN groups, tags them with `vlan1` and
`vlan2`, still creates the stitch node, and appends its two interfaces last
to the per-VLAN interface lists and hence to the two links. -/
theorem single_host_two_links (p : Params) (n : String)
    (h1 : p.node_count = 1) (h2 : nodeList p = [n]) :
    (assembleGraph p).1.lans =
      [{ kind := .ptpLink, name := "link", ltype := "vlan1",
         vlan_tag := some p.vlan1,
         interfaces := [fpgaIface1 0, stitchIface1 1],
         link_multiplexing := false, best_effort := false },
       { kind := .ptpLink, name := "link", ltype := "vlan2",
         vlan_tag := some p.vlan2,
         interfaces := [fpgaIface2 0, stitchIface2 1],
         link_multiplexing := false, best_effort := false }] ∧
    (assembleGraph p).1.stitch = [mkStitchNode p 1] ∧
    memberIfs1 p = [fpgaIface1 0, stitchIface1 1] ∧
    memberIfs2 p = [fpgaIface2 0, stitchIface2 1] := by
  refine ⟨?_, ?_, ?_, ?_⟩ <;>
    simp [assembleGraph, loopResult, memberIfs1, memberIfs2, h2, hostLoop,
          initLanEnv, h1, tagAndFlag, lansOf, emptyLink]

/-- Witness for C2 at the concrete single-host parameter set `P_one`. -/
theorem single_host_two_links_witness :
    (assembleGraph P_one).1.lans =
      [{ kind := .ptpLink, name := "link", ltype := "vlan1",
         vlan_tag := some P_one.vlan1,
         interfaces := [fpgaIface1 0, stitchIface1 1],
         link_multiplexing := false, best_effort := false },
       { kind := .ptpLink, name := "link", ltype := "vlan2",
         vlan_tag := some P_one.vlan2,
         interfaces := [fpgaIface2 0, stitchIface2 1],
         link_multiplexing := false, best_effort := false }] ∧
    (assembleGraph P_one).1.stitch = [mkStitchNode P_one 1] ∧
    memberIfs1 P_one = [fpgaIface1 0, stitchIface1 1] ∧
    memberIfs2 P_one = [fpgaIface2 0, stitchIface2 1] :=
  single_host_two_links P_one "x" rfl rfl

/-! ### C4: validation accumulates all four checks -/

/-- C4: each of the four validation checks contributes its error exactly when
its own condition is violated, independently of the other three, and a run
reaches the RSpec-emitting `.ok` only when no error was reported. -/
theorem validation_independent_checks (p : Params) :
    (nodeCountError ∈ validationErrors p ↔
      p.node_count < NODE_MIN ∨ p.node_count > NODE_MAX) ∧
    (osToolError ∈ validationErrors p ↔
      p.osImage = CENTOS8_IMAGE ∧ p.toolVersion = "2020.1") ∧
    (vlanError ∈ validationErrors p ↔
      (p.vlan1 < VLAN_MIN ∨ p.vlan1 > VLAN_MAX) ∨
      (p.vlan2 < VLAN_MIN ∨ p.vlan2 > VLAN_MAX)) ∧
    (∀ g, run p = .ok g → validationErrors p = []) := by
  have ne1 : nodeCountError ≠ osToolError := by decide
  have ne2 : nodeCountError ≠ vlanError := by decide
  have ne3 : osToolError ≠ vlanError := by decide
  refine ⟨?_, ?_, ?_, ?_⟩
  · simp [validationErrors, mem_if_singleton, ne1, ne2]
  · simp [validationErrors, mem_if_singleton, ne1.symm, ne3]
  · simp [validationErrors, mem_if_singleton, ne2.symm, ne3.symm]
  · intro g hg
    unfold run at hg
    cases hps : parseSubnet p.ip_subnet with
    | none => rw [hps] at hg; exact Except.noConfusion hg
    | some s =>
      rw [hps] at hg
      by_cases hv : validationErrors p = []
      · exact hv
      · rw [if_neg hv] at hg; exact Except.noConfusion hg

/-! ### C5: subnet parsing order and fatality -/

/-- C5: subnet parsing attempts IPv4 first and IPv6 only when IPv4 fails; it
succeeds exactly when one of the two parsers accepts the string; and when
both fail the run aborts with the fatal parse error, which is neither the
accumulable validation failure nor a successful emission. -/
theorem subnet_parse_order_and_fatal (p : Params) :
    ((parseIPv4Network p.ip_subnet).isSome = true →
      parseSubnet p.ip_subnet = parseIPv4Network p.ip_subnet) ∧
    (parseIPv4Network p.ip_subnet = none →
      parseSubnet p.ip_subnet = parseIPv6Network p.ip_subnet) ∧
    ((parseSubnet p.ip_subnet).isSome = true ↔
      (parseIPv4Network p.ip_subnet).isSome = true ∨
      (parseIPv6Network p.ip_subnet).isSome = true) ∧
    (parseSubnet p.ip_subnet = none →
      run p = .error .subnetParseError ∧
      (∀ es, run p ≠ .error (.validationFailed es)) ∧
      (∀ g, run p ≠ .ok g)) := by
  refine ⟨?_, ?_, ?_, ?_⟩
  · intro h4
    cases hps : parseIPv4Network p.ip_subnet with
    | none => rw [hps] at h4; exact Bool.noConfusion h4
    | some s => simp [parseSubnet, hps]
  · intro h4
    simp [parseSubnet, h4]
  · cases hps : parseIPv4Network p.ip_subnet with
    | none => simp [parseSubnet, hps]
    | some s => simp [parseSubnet, hps]
  · intro hnone
    have key : run p = .error .subnetParseError := by
      unfold run
      rw [hnone]
    refine ⟨key, ?_, ?_⟩
    · intro es h
      rw [key] at h
      exact RunError.noConfusion (Except.error.inj h)
    · intro g h
      rw [key] at h
      exact Except.noConfusion h

/-! ### C6: per-host fpga sub-node shape -/

/-- C6: the host at position `i` of the node list yields a SubNode named
`"fpga-" + hostname`, declared a sub-resource of that host, whose two
interfaces carry component ids `eth0`/`eth1` and the fixed addresses
`192.168.1.(10+i)` and `192.168.2.(10+i)` with mask `255.255.255.0`,
independently of the `ip_subnet` parameter. -/
theorem fpga_subnode_shape (p : Params) (i : Nat)
    (hi : i < (nodeList p).length) (s : String) :
    ∃ nm, (nodeList p)[i]? = some nm ∧
      ((assembleGraph p).1.fpgas)[i]? = some (mkFpgaNode nm i) ∧
      (mkFpgaNode nm i).name = "fpga-" ++ nm ∧
      (mkFpgaNode nm i).subNodeOf = nm ∧
      (mkFpgaNode nm i).interfaces =
        [{ name := none, component_id := some "eth0",
           addrs := [{ addr := "192.168.1." ++ toString (i + 10),
                       mask := "255.255.255.0" }] },
         { name := none, component_id := some "eth1",
           addrs := [{ addr := "192.168.2." ++ toString (i + 10),
                       mask := "255.255.255.0" }] }] ∧
      (assembleGraph { p with ip_subnet := s }).1 = (assembleGraph p).1 := by
  refine ⟨(nodeList p).get ⟨i, hi⟩, List.getElem?_eq_getElem hi, ?_, rfl, rfl, rfl, ?_⟩
  · have hfp : (assembleGraph p).1.fpgas = (hostLoop p (nodeList p) 0).fpgas := rfl
    rw [hfp, hostLoop_fpgas_getElem, List.getElem?_eq_getElem hi]
    simp
  · exact congrArg Prod.fst
      (assembleGraph_fields_congr { p with ip_subnet := s } p
        rfl rfl rfl rfl rfl rfl rfl rfl rfl rfl).1

/-- Witness for C6: the first host of `P_two`. -/
theorem fpga_subnode_shape_witness :
    ∃ nm, (nodeList P_two)[0]? = some nm ∧
      ((assembleGraph P_two).1.fpgas)[0]? = some (mkFpgaNode nm 0) ∧
      (mkFpgaNode nm 0).name = "fpga-" ++ nm ∧
      (mkFpgaNode nm 0).subNodeOf = nm ∧
      (mkFpgaNode nm 0).interfaces =
        [{ name := none, component_id := some "eth0",
           addrs := [{ addr := "192.168.1." ++ toString (0 + 10),
                       mask := "255.255.255.0" }] },
         { name := none, component_id := some "eth1",
           addrs := [{ addr := "192.168.2." ++ toString (0 + 10),
                       mask := "255.255.255.0" }] }] ∧
      (assembleGraph { P_two with ip_subnet := "10.0.0.0/8" }).1 = (assembleGraph P_two).1 :=
  fpga_subnode_shape P_two 0 (by decide) "10.0.0.0/8"

/-! ### C7: the stitch node -/

/-- C7: exactly one stitch node is created; its manager is the selected
cluster when that cluster is one of the two allowed authorities and the
UMass default otherwise; it is non-exclusive; its two interfaces carry the
addresses `192.168.{1,2}.(50+host_count)` and are the last members of the
two per-VLAN interface lists. -/
theorem stitch_node_shape (p : Params) :
    (assembleGraph p).1.stitch = [mkStitchNode p (nodeList p).length] ∧
    (mkStitchNode p (nodeList p).length).component_manager_id =
      (if p.cluster = UMASS_CM ∨ p.cluster = CLEMSON_CM then p.cluster else UMASS_CM) ∧
    (mkStitchNode p (nodeList p).length).exclusive = false ∧
    (mkStitchNode p (nodeList p).length).interfaces =
      [stitchIface1 (nodeList p).length, stitchIface2 (nodeList p).length] ∧
    stitchIface1 (nodeList p).length =
      { name := some "if0", component_id := none,
        addrs := [{ addr := "192.168.1." ++ toString ((nodeList p).length + 50),
                    mask := "255.255.255.0" }] } ∧
    stitchIface2 (nodeList p).length =
      { name := some "if1", component_id := none,
        addrs := [{ addr := "192.168.2." ++ toString ((nodeList p).length + 50),
                    mask := "255.255.255.0" }] } ∧
    (memberIfs1 p).getLast? = some (stitchIface1 (nodeList p).length) ∧
    (memberIfs2 p).getLast? = some (stitchIface2 (nodeList p).length) := by
  have hidx : (loopResult p).idx = (nodeList p).length := by
    have := hostLoop_idx p (nodeList p) 0
    simpa [loopResult] using this
  refine ⟨?_, rfl, rfl, rfl, rfl, rfl, ?_, ?_⟩
  · show [mkStitchNode p (loopResult p).idx] = _
    rw [hidx]
  · rw [memberIfs1, hidx]
    simp
  · rw [memberIfs2, hidx]
    simp

/-! ### C8: the loop runs over the name list, not node_count -/

/-- C8: assembly creates one host node and one fpga sub-node per entry of the
comma-separated name list, whatever `node_count` says: the host and fpga
lists have the name list's length and do not change when `node_count`
does. -/
theorem loop_over_names_not_count (p : Params) :
    (assembleGraph p).1.hosts.length = (nodeList p).length ∧
    (assembleGraph p).1.fpgas.length = (nodeList p).length ∧
    (assembleGraph p).1.hosts = (nodeList p).map (mkHostNode p) ∧
    (∀ n : Int,
      (assembleGraph { p with node_count := n }).1.hosts = (assembleGraph p).1.hosts ∧
      (assembleGraph { p with node_count := n }).1.fpgas = (assembleGraph p).1.fpgas) := by
  have hh : (assembleGraph p).1.hosts = (hostLoop p (nodeList p) 0).hosts := rfl
  have hf : (assembleGraph p).1.fpgas = (hostLoop p (nodeList p) 0).fpgas := rfl
  refine ⟨?_, ?_, ?_, ?_⟩
  · rw [hh, hostLoop_hosts]; simp
  · rw [hf, hostLoop_fpgas_length]
  · rw [hh, hostLoop_hosts]
  · intro n
    have hcongr := hostLoop_congr { p with node_count := n } p rfl rfl rfl rfl rfl
    constructor
    · show (hostLoop { p with node_count := n } (nodeList { p with node_count := n }) 0).hosts = _
      rw [show nodeList { p with node_count := n } = nodeList p from rfl, hcongr]
      exact hh.symm
    · show (hostLoop { p with node_count := n } (nodeList { p with node_count := n }) 0).fpgas = _
      rw [show nodeList { p with node_count := n } = nodeList p from rfl, hcongr]
      exact hf.symm

/-! ### C9: assembly is deterministic in the parameter values -/

/-- C9: the assembled graph is a function of the parameter values alone: two
parameter sets that agree on every binding that assembly reads (the
`ip_subnet` string is not one of them) yield identical graphs and identical
validation-error lists; there is no random or time-based state. -/
theorem assembly_deterministic (p q : Params)
    (h1 : p.nodes = q.nodes) (h2 : p.cluster = q.cluster)
    (h3 : p.toolVersion = q.toolVersion) (h4 : p.osImage = q.osImage)
    (h5 : p.tempFileSystemSize = q.tempFileSystemSize)
    (h6 : p.tempFileSystemMax = q.tempFileSystemMax)
    (h7 : p.tempFileSystemMount = q.tempFileSystemMount)
    (h8 : p.vlan1 = q.vlan1) (h9 : p.vlan2 = q.vlan2)
    (h10 : p.node_count = q.node_count) :
    assembleGraph p = assembleGraph q ∧ validationErrors p = validationErrors q :=
  assembleGraph_fields_congr p q h1 h2 h3 h4 h5 h6 h7 h8 h9 h10

/-- Witness for C9: `P_two` and `P_two'` differ only in `ip_subnet` (indeed
`P_two'.ip_subnet` does not even parse) yet assemble the same graph. -/
theorem assembly_deterministic_witness :
    assembleGraph P_two = assembleGraph P_two' ∧
    validationErrors P_two = validationErrors P_two' :=
  assembly_deterministic P_two P_two' rfl rfl rfl rfl rfl rfl rfl rfl rfl rfl

/-! ### C10: no distinctness required between vlan1 and vlan2 -/

/-- C10: validation never compares `vlan1` with `vlan2`: setting both to the
same in-range value reports no VLAN error, and on the path where tags are
applied (`node_count = 1`) both request objects end up tagged with that same
VLAN ID. -/
theorem vlan_equal_allowed (p : Params) (v : Int)
    (hlo : VLAN_MIN ≤ v) (hhi : v ≤ VLAN_MAX) :
    vlanError ∉ validationErrors { p with vlan1 := v, vlan2 := v } ∧
    (p.node_count = 1 →
      ((assembleGraph { p with vlan1 := v, vlan2 := v }).1.lans).map (fun l => l.vlan_tag) =
        [some v, some v]) := by
  have ne2 : vlanError ≠ nodeCountError := by decide
  have ne3 : vlanError ≠ osToolError := by decide
  have hv1 : ¬(v < VLAN_MIN ∨ v > VLAN_MAX) := by
    unfold VLAN_MIN VLAN_MAX at *
    omega
  constructor
  · simp [validationErrors, mem_if_singleton, ne2, ne3, hv1]
  · intro h1
    simp [assembleGraph, initLanEnv, h1, tagAndFlag, lansOf, emptyLink]

/-- Witness for C10 at `P_one` with both VLANs set to 3110. -/
theorem vlan_equal_allowed_witness :
    vlanError ∉ validationErrors { P_one with vlan1 := 3110, vlan2 := 3110 } ∧
    (P_one.node_count = 1 →
      ((assembleGraph { P_one with vlan1 := 3110, vlan2 := 3110 }).1.lans).map
          (fun l => l.vlan_tag) =
        [some 3110, some 3110]) :=
  vlan_equal_allowed P_one 3110 (by decide) (by decide)

end OctFabric
